import Mathlib

/-!
Shallow embedding of the duplicate-classification core of the
`amplitude-to-sqlite` tool: the `ExportEvent` record type with its derived
partial equality (`src/common/amplitude_types.rs`), the `DupeType`
classifier and `DupeResolution` resolver (`src/transform/model.rs`), the
diff engine and grouping entry point (`src/transform/dupe_analyzer.rs`),
and the cross-snapshot identity check (`src/transform/compare.rs`).

Modelling conventions:
- `HashMap<String, Value>` is modelled as an association list
  `List (String × Json)` (first binding wins on lookup); `HashMap`
  equality is extensional equality of lookups (`mapBeq`).
- `DateTime<Utc>` is modelled as `Int` (an instant on a total order);
  the only operations the embedded code performs on timestamps are
  `Ord`-comparisons, which the model mirrors with `cmpInt`.
- `f64` fields (`location_lat`/`location_lng`) are modelled as `Int`;
  the embedded code only ever compares them for equality.
- Rust panics (`unwrap` on `None`, out-of-bounds indexing, `panic!`) are
  modelled with `Except PanicKind`.
-/

/-- JSON values (`serde_json::Value`) stored in event property maps.
Numbers are modelled as `Int`; object entries are kept in insertion
order. -/
inductive Json where
  | null
  | bool (b : Bool)
  | num (n : Int)
  | str (s : String)
  | arr (elems : List Json)
  | obj (entries : List (String × Json))

mutual

def Json.deq : (a b : Json) → Decidable (a = b)
  | .null, .null => .isTrue rfl
  | .null, .bool _ => .isFalse (fun h => Json.noConfusion h)
  | .null, .num _ => .isFalse (fun h => Json.noConfusion h)
  | .null, .str _ => .isFalse (fun h => Json.noConfusion h)
  | .null, .arr _ => .isFalse (fun h => Json.noConfusion h)
  | .null, .obj _ => .isFalse (fun h => Json.noConfusion h)
  | .bool _, .null => .isFalse (fun h => Json.noConfusion h)
  | .bool a, .bool b =>
    match decEq a b with
    | .isTrue h => .isTrue (by rw [h])
    | .isFalse h => .isFalse (fun hh => h (Json.bool.inj hh))
  | .bool _, .num _ => .isFalse (fun h => Json.noConfusion h)
  | .bool _, .str _ => .isFalse (fun h => Json.noConfusion h)
  | .bool _, .arr _ => .isFalse (fun h => Json.noConfusion h)
  | .bool _, .obj _ => .isFalse (fun h => Json.noConfusion h)
  | .num _, .null => .isFalse (fun h => Json.noConfusion h)
  | .num _, .bool _ => .isFalse (fun h => Json.noConfusion h)
  | .num a, .num b =>
    match decEq a b with
    | .isTrue h => .isTrue (by rw [h])
    | .isFalse h => .isFalse (fun hh => h (Json.num.inj hh))
  | .num _, .str _ => .isFalse (fun h => Json.noConfusion h)
  | .num _, .arr _ => .isFalse (fun h => Json.noConfusion h)
  | .num _, .obj _ => .isFalse (fun h => Json.noConfusion h)
  | .str _, .null => .isFalse (fun h => Json.noConfusion h)
  | .str _, .bool _ => .isFalse (fun h => Json.noConfusion h)
  | .str _, .num _ => .isFalse (fun h => Json.noConfusion h)
  | .str a, .str b =>
    match decEq a b with
    | .isTrue h => .isTrue (by rw [h])
    | .isFalse h => .isFalse (fun hh => h (Json.str.inj hh))
  | .str _, .arr _ => .isFalse (fun h => Json.noConfusion h)
  | .str _, .obj _ => .isFalse (fun h => Json.noConfusion h)
  | .arr _, .null => .isFalse (fun h => Json.noConfusion h)
  | .arr _, .bool _ => .isFalse (fun h => Json.noConfusion h)
  | .arr _, .num _ => .isFalse (fun h => Json.noConfusion h)
  | .arr _, .str _ => .isFalse (fun h => Json.noConfusion h)
  | .arr a, .arr b =>
    match Json.deqList a b with
    | .isTrue h => .isTrue (by rw [h])
    | .isFalse h => .isFalse (fun hh => h (Json.arr.inj hh))
  | .arr _, .obj _ => .isFalse (fun h => Json.noConfusion h)
  | .obj _, .null => .isFalse (fun h => Json.noConfusion h)
  | .obj _, .bool _ => .isFalse (fun h => Json.noConfusion h)
  | .obj _, .num _ => .isFalse (fun h => Json.noConfusion h)
  | .obj _, .str _ => .isFalse (fun h => Json.noConfusion h)
  | .obj _, .arr _ => .isFalse (fun h => Json.noConfusion h)
  | .obj a, .obj b =>
    match Json.deqObj a b with
    | .isTrue h => .isTrue (by rw [h])
    | .isFalse h => .isFalse (fun hh => h (Json.obj.inj hh))

def Json.deqList : (a b : List Json) → Decidable (a = b)
  | [], [] => .isTrue rfl
  | [], _ :: _ => .isFalse (fun h => List.noConfusion h)
  | _ :: _, [] => .isFalse (fun h => List.noConfusion h)
  | x :: xs, y :: ys =>
    match Json.deq x y, Json.deqList xs ys with
    | .isTrue h1, .isTrue h2 => .isTrue (by rw [h1, h2])
    | .isFalse h1, _ => .isFalse (fun h => h1 (List.cons.inj h).1)
    | _, .isFalse h2 => .isFalse (fun h => h2 (List.cons.inj h).2)

def Json.deqObj : (a b : List (String × Json)) → Decidable (a = b)
  | [], [] => .isTrue rfl
  | [], _ :: _ => .isFalse (fun h => List.noConfusion h)
  | _ :: _, [] => .isFalse (fun h => List.noConfusion h)
  | (k1, v1) :: xs, (k2, v2) :: ys =>
    match decEq k1 k2, Json.deq v1 v2, Json.deqObj xs ys with
    | .isTrue hk, .isTrue hv, .isTrue ht => .isTrue (by rw [hk, hv, ht])
    | .isFalse hk, _, _ =>
      .isFalse (fun h => hk (congrArg Prod.fst (List.cons.inj h).1))
    | _, .isFalse hv, _ =>
      .isFalse (fun h => hv (congrArg Prod.snd (List.cons.inj h).1))
    | _, _, .isFalse ht => .isFalse (fun h => ht (List.cons.inj h).2)

end

instance : DecidableEq Json := Json.deq

/-- `HashMap::get`: lookup in the association-list model of
`HashMap<String, Value>` (first binding wins, mirroring key uniqueness). -/
def mapGet (m : List (String × Json)) (k : String) : Option Json :=
  (m.find? (fun p => p.1 == k)).map (·.2)

/-- `HashMap` `PartialEq`: two maps are equal when lookups agree on every
key (checked on all keys present in either map). -/
def mapBeq (m1 m2 : List (String × Json)) : Bool :=
  (m1 ++ m2).all (fun p => mapGet m1 p.1 == mapGet m2 p.1)

/-- `Option<HashMap<String, Value>>` `PartialEq`. -/
def optMapBeq : Option (List (String × Json)) → Option (List (String × Json)) → Bool
  | none, none => true
  | some m1, some m2 => mapBeq m1 m2
  | _, _ => false

/-- `Ord::cmp` on the timestamp model (`DateTime<Utc>` instants). -/
def cmpInt (a b : Int) : Ordering :=
  if a < b then .lt else if b < a then .gt else .eq

/-- `Ord::cmp` on `Option<DateTime<Utc>>` (Rust: `None` sorts before
`Some`). -/
def cmpOptTime : Option Int → Option Int → Ordering
  | none, none => .eq
  | none, some _ => .lt
  | some _, none => .gt
  | some a, some b => cmpInt a b

/-- One exported event (`ExportEvent` in `src/common/amplitude_types.rs`),
field for field in declaration order. Type key: `Option<String>` →
`Option String`; `Option<i64>` → `Option Int`; `Option<Value>` →
`Option Json`; `Option<HashMap<String, Value>>` →
`Option (List (String × Json))`; `Option<DateTime<Utc>>` and the two
`Option<f64>` fields → `Option Int` (see module comment). -/
structure ExportEvent where
  insert_id : Option String
  insert_key : Option Json
  schema : Option Json
  adid : Option String
  amplitude_attribution_ids : Option Json
  amplitude_event_type : Option Json
  amplitude_id : Option Int
  app : Option Int
  city : Option String
  client_event_time : Option Int
  client_upload_time : Option Int
  country : Option String
  data : Option (List (String × Json))
  data_type : Option String
  device_brand : Option String
  device_carrier : Option String
  device_family : Option String
  device_id : Option String
  device_manufacturer : Option String
  device_model : Option String
  device_type : Option String
  dma : Option String
  event_id : Option Int
  event_properties : Option (List (String × Json))
  event_time : Option Int
  event_type : Option String
  global_user_properties : Option Json
  group_properties : Option (List (String × Json))
  groups : Option (List (String × Json))
  idfa : Option String
  ip_address : Option String
  is_attribution_event : Option Json
  language : Option String
  library : Option String
  location_lat : Option Int
  location_lng : Option Int
  os_name : Option String
  os_version : Option String
  partner_id : Option Json
  paying : Option Json
  plan : Option (List (String × Json))
  platform : Option String
  processed_time : Option String
  region : Option String
  sample_rate : Option Json
  server_received_time : Option Int
  server_upload_time : Option Int
  session_id : Option Int
  source_id : Option Json
  start_version : Option Json
  user_creation_time : Option Json
  user_id : Option String
  user_properties : Option (List (String × Json))
  uuid : Option String
  version_name : Option Json
deriving DecidableEq

/-- The event with every field absent (`ExportEvent::default()`). -/
def blankEvent : ExportEvent where
  insert_id := none
  insert_key := none
  schema := none
  adid := none
  amplitude_attribution_ids := none
  amplitude_event_type := none
  amplitude_id := none
  app := none
  city := none
  client_event_time := none
  client_upload_time := none
  country := none
  data := none
  data_type := none
  device_brand := none
  device_carrier := none
  device_family := none
  device_id := none
  device_manufacturer := none
  device_model := none
  device_type := none
  dma := none
  event_id := none
  event_properties := none
  event_time := none
  event_type := none
  global_user_properties := none
  group_properties := none
  groups := none
  idfa := none
  ip_address := none
  is_attribution_event := none
  language := none
  library := none
  location_lat := none
  location_lng := none
  os_name := none
  os_version := none
  partner_id := none
  paying := none
  plan := none
  platform := none
  processed_time := none
  region := none
  sample_rate := none
  server_received_time := none
  server_upload_time := none
  session_id := none
  source_id := none
  start_version := none
  user_creation_time := none
  user_id := none
  user_properties := none
  uuid := none
  version_name := none

/-- The `#[autoimpl(PartialEq ignore ...)]` equality on `ExportEvent`:
every field is compared except the 22 ignored volatile ones (`city`,
`country`, `device_carrier`, `device_family`, `device_type`, `event_id`,
`ip_address`, `os_name`, `os_version`, `platform`, `client_upload_time`,
`processed_time`, `server_received_time`, `server_upload_time`,
`user_properties`, `uuid`, `language`, `region`, `dma`, `data`,
`start_version`, `version_name`). This is the §3 equality invariant. -/
def exportEventEq (a b : ExportEvent) : Bool :=
  a.insert_id == b.insert_id &&
  a.insert_key == b.insert_key &&
  a.schema == b.schema &&
  a.adid == b.adid &&
  a.amplitude_attribution_ids == b.amplitude_attribution_ids &&
  a.amplitude_event_type == b.amplitude_event_type &&
  a.amplitude_id == b.amplitude_id &&
  a.app == b.app &&
  a.client_event_time == b.client_event_time &&
  a.data_type == b.data_type &&
  a.device_brand == b.device_brand &&
  a.device_id == b.device_id &&
  a.device_manufacturer == b.device_manufacturer &&
  a.device_model == b.device_model &&
  optMapBeq a.event_properties b.event_properties &&
  a.event_time == b.event_time &&
  a.event_type == b.event_type &&
  a.global_user_properties == b.global_user_properties &&
  optMapBeq a.group_properties b.group_properties &&
  optMapBeq a.groups b.groups &&
  a.idfa == b.idfa &&
  a.is_attribution_event == b.is_attribution_event &&
  a.library == b.library &&
  a.location_lat == b.location_lat &&
  a.location_lng == b.location_lng &&
  a.partner_id == b.partner_id &&
  a.paying == b.paying &&
  optMapBeq a.plan b.plan &&
  a.sample_rate == b.sample_rate &&
  a.session_id == b.session_id &&
  a.source_id == b.source_id &&
  a.user_creation_time == b.user_creation_time &&
  a.user_id == b.user_id

/-- Modelled Rust panics: out-of-bounds `Vec` indexing, `Option::unwrap`
on `None`, and the explicit `panic!` in `DupeType::from_events`. -/
inductive PanicKind where
  | indexOutOfBounds
  | unwrapNone
  | impossibleCondition
deriving DecidableEq

/-- `DupeType` (`src/transform/model.rs`): the closed taxonomy of
duplicate-group shapes, each carrying the group it classified. -/
inductive DupeType where
  | preOrderDropCompletedMistake (items : List ExportEvent)
  | propertyNameChange (items : List ExportEvent)
  | propertyDropPriceChange (items : List ExportEvent)
  | dropTypeChange (items : List ExportEvent)
  | trueDuplicate (items : List ExportEvent)
  | unknownPropDiff (items : List ExportEvent)
  | unknown (items : List ExportEvent)
  | tooMany (items : List ExportEvent)
  | multi (items : List ExportEvent) (types : List DupeType)
  | eventPropsIncompatible (items : List ExportEvent)

/-- `DupeResolution` (`src/transform/model.rs`). -/
inductive DupeResolution where
  | keepOne (e : ExportEvent)
  | keepNone (e : ExportEvent)
  | keepMany (es : List ExportEvent)
  | error (d : DupeType)

/-- `str::replace` on the character-list level: replace every
non-overlapping occurrence of `pat` left to right. The fuel argument is
the length of the scanned text; it bounds recursion and is never
exhausted for a non-empty pattern (the embedded code only replaces the
literal pattern string of rule 1). -/
def replaceAux : Nat → List Char → List Char → List Char → List Char
  | 0, s, _, _ => s
  | _ + 1, [], _, _ => []
  | fuel + 1, c :: rest, pat, rep =>
    if pat.isPrefixOf (c :: rest) then
      rep ++ replaceAux fuel ((c :: rest).drop pat.length) pat rep
    else
      c :: replaceAux fuel rest pat rep

/-- `String::replace(pat, rep)`. -/
def strReplace (s pat rep : String) : String :=
  ⟨replaceAux s.data.length s.data pat.data rep.data⟩

/-- The `set_tentative` closure in `DupeType::from_events`: the first
fired rule is stored as-is; a further fired rule folds everything into
`Multi(events, fired_rules)`. -/
def setTentative (events : List ExportEvent) (tentative : Option DupeType)
    (v : DupeType) : Option DupeType :=
  match tentative with
  | none => some v
  | some prev =>
    let currentCol :=
      match prev with
      | .multi _ types => types
      | _ => [prev]
    some (.multi events (currentCol ++ [v]))

def submittedType : Option String := some "Property Pre-Order Submitted"

def completedType : Option String := some "Property Pre-Order Completed"

/-- `items.iter().min_by(|v1, v2| v1.client_upload_time.cmp(...))`:
Rust's `min_by` returns the first element among equal minima, so the
fold only replaces the accumulator on a strictly smaller key. -/
def minByUploadTime : List ExportEvent → Option ExportEvent
  | [] => none
  | x :: xs =>
    some (xs.foldl
      (fun acc e =>
        if cmpOptTime e.client_upload_time acc.client_upload_time = .lt then e
        else acc)
      x)

/-- Shared body of the `DropTypeChange | PropertyNameChange |
PropertyDropPriceChange` arm of `DupeType::resolution`: keep every field
of the event with the earlier `client_upload_time`, except
`event_properties`, taken from the other event. Indexes `items[0]` and
`items[1]`. -/
def resolvePropChange (items : List ExportEvent) : Except PanicKind DupeResolution :=
  match items with
  | e0 :: e1 :: _ =>
    let pair :=
      if cmpOptTime e0.client_upload_time e1.client_upload_time = .lt then (e0, e1)
      else (e1, e0)
    .ok (.keepOne { pair.1 with event_properties := pair.2.event_properties })
  | _ => .error .indexOutOfBounds

/-- The loop of the `PreOrderDropCompletedMistake` arm of
`DupeType::resolution`: remember the last event whose `event_type` is
the submitted step and the last whose `event_type` is the completed
step. -/
def findSubmittedCompleted (items : List ExportEvent) :
    Option ExportEvent × Option ExportEvent :=
  items.foldl
    (fun p item =>
      match item.event_type with
      | some t =>
        if t = "Property Pre-Order Submitted" then (some item, p.2)
        else if t = "Property Pre-Order Completed" then (p.1, some item)
        else p
      | none => p)
    (none, none)

/-- `DupeType::resolution` (`src/transform/model.rs`). -/
def resolution : DupeType → Except PanicKind DupeResolution
  | .preOrderDropCompletedMistake items =>
    let p := findSubmittedCompleted items
    let resultEvents :=
      (match p.1 with
       | some submitted => [submitted]
       | none => []) ++
      (match p.2 with
       | some completedEvent =>
         [{ completedEvent with
             insert_id :=
               match completedEvent.insert_id with
               | some iid => some (strReplace iid "Submitted" "Completed")
               | none => none }]
       | none => [])
    .ok (.keepMany resultEvents)
  | .dropTypeChange items => resolvePropChange items
  | .propertyNameChange items => resolvePropChange items
  | .propertyDropPriceChange items => resolvePropChange items
  | .trueDuplicate items =>
    match minByUploadTime items with
    | some kept => .ok (.keepOne kept)
    | none => .error .unwrapNone
  | .unknown items => .ok (.error (.unknown items))
  | .unknownPropDiff items => .ok (.error (.unknownPropDiff items))
  | .tooMany items => .ok (.error (.tooMany items))
  | .eventPropsIncompatible items => .ok (.error (.eventPropsIncompatible items))
  | .multi items types => .ok (.error (.multi items types))

/-- `is_ascii_hexdigit`-style check used by the uuid crate's parser. -/
def isHexAscii (c : Char) : Bool :=
  ('0' ≤ c && c ≤ '9') || ('a' ≤ c && c ≤ 'f') || ('A' ≤ c && c ≤ 'F')

/-- The hyphenated 8-4-4-4-12 UUID layout: 36 characters, `-` at
positions 8, 13, 18, 23, hex digits elsewhere. -/
def hyphenatedUuid (cs : List Char) : Bool :=
  cs.length == 36 &&
  cs.enum.all (fun p =>
    if p.1 == 8 || p.1 == 13 || p.1 == 18 || p.1 == 23 then p.2 == '-'
    else isHexAscii p.2)

/-- `uuid::Uuid::parse_str`: accepts the simple (32 hex digits),
hyphenated (36 chars), braced (38 chars) and URN-prefixed (45 chars)
layouts, as dispatched on input length by the uuid crate. -/
def uuidParseOk (s : String) : Bool :=
  let cs := s.data
  if cs.length == 32 then cs.all isHexAscii
  else if cs.length == 36 then hyphenatedUuid cs
  else if cs.length == 38 then
    cs.head? == some '{' && cs.getLast? == some '}' &&
    hyphenatedUuid (cs.drop 1).dropLast
  else if cs.length == 45 then
    "urn:uuid:".data.isPrefixOf cs && hyphenatedUuid (cs.drop 9)
  else false

/-- The end of `DupeType::from_events`: when no fired rule set
`skip_diff_check`, fall back to whole-record equality under the §3
invariant (`TrueDuplicate` vs `UnknownPropDiff`); then unwrap the
tentative classification, defaulting to `Unknown`. -/
def finishDiffCheck (events : List ExportEvent) (first second : ExportEvent)
    (tentative : Option DupeType) (skipDiffCheck : Bool) : DupeType :=
  let t :=
    if !skipDiffCheck then
      if exportEventEq first second then
        setTentative events tentative (.trueDuplicate events)
      else
        setTentative events tentative (.unknownPropDiff events)
    else tentative
  t.getD (.unknown events)

/-- `DupeType::from_events` (`src/transform/model.rs`): the ordered rule
cascade. Groups larger than two short-circuit to `TooMany`; groups
smaller than two panic when `events[0]`/`events[1]` are cloned. -/
def fromEvents (events : List ExportEvent) : Except PanicKind DupeType :=
  if events.length > 2 then .ok (.tooMany events)
  else
    let fired1 :=
      events.any (fun e => e.event_type == submittedType) &&
      events.any (fun e => e.event_type == completedType)
    let t1 : Option DupeType :=
      if fired1 then setTentative events none (.preOrderDropCompletedMistake events)
      else none
    match events with
    | first :: second :: _ =>
      if !(optMapBeq first.event_properties second.event_properties) then
        match first.event_properties, second.event_properties with
        | some firstProps, some secondProps =>
          match first.insert_id with
          | none => .error .unwrapNone
          | some insertId =>
            if uuidParseOk insertId then
              .ok (finishDiffCheck events first second
                (setTentative events t1 (.unknown events)) fired1)
            else
              let fired2 := !(mapGet firstProps "Property" == mapGet secondProps "Property")
              let t2 :=
                if fired2 then setTentative events t1 (.propertyNameChange events) else t1
              let fired3 := !(mapGet firstProps "Drop Type" == mapGet secondProps "Drop Type")
              let t3 :=
                if fired3 then setTentative events t2 (.dropTypeChange events) else t2
              let fired4 :=
                !(mapGet firstProps "Price per Share" == mapGet secondProps "Price per Share")
              let t4 :=
                if fired4 then setTentative events t3 (.propertyDropPriceChange events) else t3
              .ok (finishDiffCheck events first second t4
                (fired1 || fired2 || fired3 || fired4))
        | none, some _ =>
          .ok (finishDiffCheck events first second
            (setTentative events t1 (.eventPropsIncompatible events)) fired1)
        | some _, none =>
          .ok (finishDiffCheck events first second
            (setTentative events t1 (.eventPropsIncompatible events)) fired1)
        | none, none => .error .impossibleCondition
      else
        .ok (finishDiffCheck events first second t1 fired1)
    | _ => .error .indexOutOfBounds

/-- The completed-record rewrite of the `PreOrderDropCompletedMistake`
resolution: replace the substring `Submitted` by `Completed` inside the
record\'s `insert_id` (left unchanged when `insert_id` is absent). -/
def rewriteInsertId (e : ExportEvent) : ExportEvent :=
  { e with insert_id := e.insert_id.map (fun iid => strReplace iid "Submitted" "Completed") }

/-- The per-key bucket built by the grouping loop of
`analyze_duplicates_and_types` (`src/transform/dupe_analyzer.rs`): events
are appended to the bucket of their `insert_id`; events with no
`insert_id` join no bucket. -/
def insertIdGroup (events : List ExportEvent) (k : String) : List ExportEvent :=
  events.filter (fun e => e.insert_id == some k)

/-- Serialize an optional string field (`serde`): `None` → JSON null. -/
def jStr : Option String → Json
  | some s => .str s
  | none => .null

/-- Serialize an optional integer field: `None` → JSON null. -/
def jInt : Option Int → Json
  | some n => .num n
  | none => .null

/-- Serialize an optional `Value` field: `None` → JSON null. -/
def jVal : Option Json → Json
  | some v => v
  | none => .null

/-- Serialize an optional map field: `None` → JSON null. -/
def jMap : Option (List (String × Json)) → Json
  | some m => .obj m
  | none => .null

/-- `serde_json::to_value` on an `ExportEvent`: one JSON object key per
field, in declaration order, honouring the `$insert_id` / `$insert_key` /
`$schema` renames. Every key is always present (the struct has no
`skip_serializing_if`). Timestamps go through an injective formatter in
the source; the model keeps the underlying instant, which preserves
equality and inequality of serialized values. -/
def eventToJson (e : ExportEvent) : List (String × Json) :=
  [("$insert_id", jStr e.insert_id),
   ("$insert_key", jVal e.insert_key),
   ("$schema", jVal e.schema),
   ("adid", jStr e.adid),
   ("amplitude_attribution_ids", jVal e.amplitude_attribution_ids),
   ("amplitude_event_type", jVal e.amplitude_event_type),
   ("amplitude_id", jInt e.amplitude_id),
   ("app", jInt e.app),
   ("city", jStr e.city),
   ("client_event_time", jInt e.client_event_time),
   ("client_upload_time", jInt e.client_upload_time),
   ("country", jStr e.country),
   ("data", jMap e.data),
   ("data_type", jStr e.data_type),
   ("device_brand", jStr e.device_brand),
   ("device_carrier", jStr e.device_carrier),
   ("device_family", jStr e.device_family),
   ("device_id", jStr e.device_id),
   ("device_manufacturer", jStr e.device_manufacturer),
   ("device_model", jStr e.device_model),
   ("device_type", jStr e.device_type),
   ("dma", jStr e.dma),
   ("event_id", jInt e.event_id),
   ("event_properties", jMap e.event_properties),
   ("event_time", jInt e.event_time),
   ("event_type", jStr e.event_type),
   ("global_user_properties", jVal e.global_user_properties),
   ("group_properties", jMap e.group_properties),
   ("groups", jMap e.groups),
   ("idfa", jStr e.idfa),
   ("ip_address", jStr e.ip_address),
   ("is_attribution_event", jVal e.is_attribution_event),
   ("language", jStr e.language),
   ("library", jStr e.library),
   ("location_lat", jInt e.location_lat),
   ("location_lng", jInt e.location_lng),
   ("os_name", jStr e.os_name),
   ("os_version", jStr e.os_version),
   ("partner_id", jVal e.partner_id),
   ("paying", jVal e.paying),
   ("plan", jMap e.plan),
   ("platform", jStr e.platform),
   ("processed_time", jStr e.processed_time),
   ("region", jStr e.region),
   ("sample_rate", jVal e.sample_rate),
   ("server_received_time", jInt e.server_received_time),
   ("server_upload_time", jInt e.server_upload_time),
   ("session_id", jInt e.session_id),
   ("source_id", jVal e.source_id),
   ("start_version", jVal e.start_version),
   ("user_creation_time", jVal e.user_creation_time),
   ("user_id", jStr e.user_id),
   ("user_properties", jMap e.user_properties),
   ("uuid", jStr e.uuid),
   ("version_name", jVal e.version_name)]

/-- Shared diff body of `find_event_differences` and the both-present
case of `find_event_properties_differences`
(`src/transform/dupe_analyzer.rs`): collect all unique keys of both
objects (the source's `HashSet`, deduplicated here in first-seen order)
and report each key whose two values differ, with both values. -/
def diffOverKeys (o1 o2 : List (String × Json)) :
    List (String × (Option Json × Option Json)) :=
  (((o1.map (·.1) ++ o2.map (·.1)).dedup).filter
      (fun k => !(mapGet o1 k == mapGet o2 k))).map
    (fun k => (k, (mapGet o1 k, mapGet o2 k)))

/-- `find_event_differences` (`src/transform/dupe_analyzer.rs`): diff of
the two serialized events, keyed by field name. -/
def findEventDifferences (e1 e2 : ExportEvent) :
    List (String × (Option Json × Option Json)) :=
  diffOverKeys (eventToJson e1) (eventToJson e2)

/-- `find_event_properties_differences`
(`src/transform/dupe_analyzer.rs`): diff restricted to
`event_properties`, with the three presence cases handled explicitly. -/
def findEventPropertiesDifferences (e1 e2 : ExportEvent) :
    List (String × (Option Json × Option Json)) :=
  match e1.event_properties, e2.event_properties with
  | none, none => []
  | some m, none => m.map (fun p => (p.1, (mapGet m p.1, none)))
  | none, some m => m.map (fun p => (p.1, (none, mapGet m p.1)))
  | some m1, some m2 => diffOverKeys m1 m2

/-- `events_are_identical` (`src/transform/compare.rs`): the
cross-snapshot identity check over nine hand-picked fields. -/
def eventsAreIdentical (e1 e2 : ExportEvent) : Bool :=
  e1.insert_id == e2.insert_id &&
  e1.event_type == e2.event_type &&
  e1.user_id == e2.user_id &&
  e1.device_id == e2.device_id &&
  e1.event_time == e2.event_time &&
  optMapBeq e1.event_properties e2.event_properties &&
  optMapBeq e1.user_properties e2.user_properties &&
  optMapBeq e1.groups e2.groups &&
  optMapBeq e1.group_properties e2.group_properties

/-- Spec-side (§3) characterization of map equality: the two maps agree
on every lookup. -/
def MapEqv (m1 m2 : List (String × Json)) : Prop :=
  ∀ k, mapGet m1 k = mapGet m2 k

/-- Spec-side equality of optional maps: both absent, or both present
and extensionally equal. -/
def OptMapEqv : Option (List (String × Json)) → Option (List (String × Json)) → Prop
  | none, none => True
  | some m1, some m2 => MapEqv m1 m2
  | _, _ => False

/-- A true duplicate of `blankEvent` that differs only in the volatile
`client_upload_time` field. -/
def dupLater : ExportEvent := { blankEvent with client_upload_time := some 3 }

/-- Earlier-uploaded event of a property-change pair. -/
def chgEarlier : ExportEvent := { blankEvent with client_upload_time := some 1 }

/-- Later-uploaded event of a property-change pair, carrying corrected
properties. -/
def chgLater : ExportEvent :=
  { blankEvent with client_upload_time := some 2,
                    event_properties := some [("p", Json.num 7)] }

/-- The submitted step of a two-phase pre-order flow. -/
def preSub : ExportEvent :=
  { blankEvent with insert_id := some "X Submitted",
                    event_type := some "Property Pre-Order Submitted" }

/-- The completed step mistakenly sharing the submitted step's key. -/
def preCom : ExportEvent :=
  { blankEvent with insert_id := some "X Submitted",
                    event_type := some "Property Pre-Order Completed" }

/-- Record with a non-UUID key and property key `Property`. -/
def renA : ExportEvent :=
  { blankEvent with insert_id := some "abc",
                    event_properties := some [("Property", Json.str "v")] }

/-- Record with the same non-UUID key and property key `PropertyName`
holding the same value. -/
def renB : ExportEvent :=
  { blankEvent with insert_id := some "abc",
                    event_properties := some [("PropertyName", Json.str "v")] }

/-- The nil UUID, a valid hyphenated UUID string. -/
def nilUuid : String := "00000000-0000-0000-0000-000000000000"

/-- Record with a UUID key and a property map. -/
def uuidA : ExportEvent :=
  { blankEvent with insert_id := some nilUuid,
                    event_properties := some [("x", Json.num 1)] }

/-- Record with the same UUID key and a different property map. -/
def uuidB : ExportEvent :=
  { blankEvent with insert_id := some nilUuid,
                    event_properties := some [("x", Json.num 2)] }

/-- Record with no `insert_id` but a present property map. -/
def noIdA : ExportEvent :=
  { blankEvent with event_properties := some [("x", Json.num 1)] }

/-- Second record of the no-`insert_id` group, with different
properties. -/
def noIdB : ExportEvent :=
  { blankEvent with event_properties := some [("x", Json.num 2)] }

/-- Event differing from `blankEvent` only in `user_properties`, a field
the §3 invariant ignores but `events_are_identical` compares. -/
def userPropsOnly : ExportEvent :=
  { blankEvent with user_properties := some [("u", Json.num 1)] }

/-- Event whose property map holds the single binding `x` to `1`. -/
def propXOnly : ExportEvent :=
  { blankEvent with event_properties := some [("x", Json.num 1)] }

theorem mapGet_eq_some_mem {m : List (String × Json)} {k : String} {v : Json}
    (h : mapGet m k = some v) : ∃ p ∈ m, p.1 = k := by
  unfold mapGet at h
  cases hf : m.find? (fun p => p.1 == k) with
  | none => rw [hf] at h; simp at h
  | some p =>
    refine ⟨p, List.mem_of_find?_eq_some hf, ?_⟩
    have hp := List.find?_some hf
    simpa using hp

theorem mapBeq_true_get {m1 m2 : List (String × Json)}
    (h : mapBeq m1 m2 = true) (k : String) : mapGet m1 k = mapGet m2 k := by
  unfold mapBeq at h
  have hall := List.all_eq_true.mp h
  cases h1 : mapGet m1 k with
  | some v =>
    obtain ⟨p, hp, hpk⟩ := mapGet_eq_some_mem h1
    have hx := hall p (List.mem_append_left _ hp)
    rw [hpk, beq_iff_eq] at hx
    rw [← h1]
    exact hx
  | none =>
    cases h2 : mapGet m2 k with
    | none => rfl
    | some w =>
      obtain ⟨p, hp, hpk⟩ := mapGet_eq_some_mem h2
      have hx := hall p (List.mem_append_right _ hp)
      rw [hpk, beq_iff_eq] at hx
      rw [← h1, ← h2]
      exact hx

theorem mapBeq_iff {m1 m2 : List (String × Json)} :
    mapBeq m1 m2 = true ↔ MapEqv m1 m2 := by
  constructor
  · exact fun h k => mapBeq_true_get h k
  · intro h
    simp only [mapBeq, List.all_eq_true]
    intro p _
    simp [h p.1]

theorem mapBeq_symm (m1 m2 : List (String × Json)) :
    mapBeq m1 m2 = mapBeq m2 m1 := by
  have hdir : ∀ u v : List (String × Json), mapBeq u v = true → mapBeq v u = true :=
    fun u v h => mapBeq_iff.2 (fun k => (mapBeq_iff.1 h k).symm)
  cases ha : mapBeq m1 m2 with
  | true => exact (hdir _ _ ha).symm
  | false =>
    cases hb : mapBeq m2 m1 with
    | true => rw [hdir _ _ hb] at ha; exact ha.symm
    | false => rfl

theorem optMapBeq_symm (o1 o2 : Option (List (String × Json))) :
    optMapBeq o1 o2 = optMapBeq o2 o1 := by
  cases o1 <;> cases o2
  · rfl
  · rfl
  · rfl
  · exact mapBeq_symm _ _

theorem optMapBeq_iff (o1 o2 : Option (List (String × Json))) :
    optMapBeq o1 o2 = true ↔ OptMapEqv o1 o2 := by
  cases o1 <;> cases o2 <;> simp [optMapBeq, OptMapEqv, mapBeq_iff]

theorem mapBeq_false_of_get_ne {m1 m2 : List (String × Json)} {k : String}
    (h : mapGet m1 k ≠ mapGet m2 k) : mapBeq m1 m2 = false := by
  cases hb : mapBeq m1 m2 with
  | false => rfl
  | true => exact absurd (mapBeq_true_get hb k) h

theorem cmpInt_swap (a b : Int) : cmpInt b a = (cmpInt a b).swap := by
  unfold cmpInt
  split_ifs <;> first | rfl | omega

theorem cmpInt_self (a : Int) : cmpInt a a = .eq := by
  unfold cmpInt
  split_ifs <;> first | rfl | omega

theorem cmpOptTime_swap (x y : Option Int) :
    cmpOptTime y x = (cmpOptTime x y).swap := by
  cases x <;> cases y
  · rfl
  · rfl
  · rfl
  · exact cmpInt_swap _ _

theorem cmpOptTime_self (x : Option Int) : cmpOptTime x x = .eq := by
  cases x
  · rfl
  · exact cmpInt_self _

theorem exportEventEq_parts {a b : ExportEvent} (h : exportEventEq a b = true) :
    a.event_type = b.event_type ∧
    optMapBeq a.event_properties b.event_properties = true := by
  simp only [exportEventEq, Bool.and_eq_true, beq_iff_eq] at h
  tauto

theorem exportEventEq_false_of_ep {a b : ExportEvent}
    (h : optMapBeq a.event_properties b.event_properties = false) :
    exportEventEq a b = false := by
  cases heq : exportEventEq a b with
  | false => rfl
  | true =>
    have hep := (exportEventEq_parts heq).2
    rw [h] at hep
    exact hep.symm

theorem mixedRule_false_of_eq_type {a b : ExportEvent}
    (h : a.event_type = b.event_type) :
    (List.any [a, b] (fun e => e.event_type == submittedType) &&
     List.any [a, b] (fun e => e.event_type == completedType)) = false := by
  simp only [List.any_cons, List.any_nil, Bool.or_false, h, Bool.or_self]
  cases hs : b.event_type == submittedType with
  | false => simp
  | true =>
    have hbt : b.event_type = submittedType := by simpa using hs
    simp only [Bool.true_and, hbt]
    decide

/-- C2: resolving any of the five ambiguous classifications — `Unknown`,
`UnknownPropDiff`, `TooMany`, `EventPropsIncompatible`, `Multi` — yields
`Error` carrying the originating `DupeType`, never `KeepOne`, `KeepNone`
or `KeepMany`: the fail-closed contract. -/
theorem claim_C2_ambiguous_resolves_to_error
    (g : List ExportEvent) (ts : List DupeType) :
    resolution (.unknown g) = .ok (.error (.unknown g)) ∧
    resolution (.unknownPropDiff g) = .ok (.error (.unknownPropDiff g)) ∧
    resolution (.tooMany g) = .ok (.error (.tooMany g)) ∧
    resolution (.eventPropsIncompatible g) = .ok (.error (.eventPropsIncompatible g)) ∧
    resolution (.multi g ts) = .ok (.error (.multi g ts)) :=
  ⟨rfl, rfl, rfl, rfl, rfl⟩

/-- C5: any group with more than two records is classified `TooMany`
before any other rule is evaluated, and resolves to `Error(TooMany)`. -/
theorem claim_C5_too_many (g : List ExportEvent) (h : 2 < g.length) :
    fromEvents g = .ok (.tooMany g) ∧
    resolution (.tooMany g) = .ok (.error (.tooMany g)) := by
  constructor
  · unfold fromEvents
    rw [if_pos h]
  · rfl

theorem claim_C5_witness :
    2 < ([blankEvent, blankEvent, blankEvent] : List ExportEvent).length ∧
    fromEvents [blankEvent, blankEvent, blankEvent] =
      .ok (.tooMany [blankEvent, blankEvent, blankEvent]) :=
  ⟨by decide, (claim_C5_too_many [blankEvent, blankEvent, blankEvent] (by decide)).1⟩

/-- C1: a two-record group that is equal under the §3 invariant is
classified `TrueDuplicate` and resolves to `KeepOne` of the record with
the chronologically earliest `client_upload_time`; on a tie the first
record in input order is kept, so the choice is deterministic. -/
theorem claim_C1_true_duplicate (a b : ExportEvent)
    (h : exportEventEq a b = true) :
    fromEvents [a, b] = .ok (.trueDuplicate [a, b]) ∧
    ∃ kept,
      resolution (.trueDuplicate [a, b]) = .ok (.keepOne kept) ∧
      (kept = a ∨ kept = b) ∧
      cmpOptTime kept.client_upload_time a.client_upload_time ≠ .gt ∧
      cmpOptTime kept.client_upload_time b.client_upload_time ≠ .gt ∧
      (cmpOptTime a.client_upload_time b.client_upload_time = .eq → kept = a) := by
  obtain ⟨het, hep⟩ := exportEventEq_parts h
  have hfired := mixedRule_false_of_eq_type het
  constructor
  · unfold fromEvents
    rw [if_neg (show ¬([a, b].length > 2) by simp)]
    simp only [hfired, hep]
    simp [finishDiffCheck, setTentative, h]
  · refine ⟨if cmpOptTime b.client_upload_time a.client_upload_time = .lt then b else a,
      ?_, ?_, ?_, ?_, ?_⟩
    · rfl
    · by_cases hc : cmpOptTime b.client_upload_time a.client_upload_time = .lt
      · rw [if_pos hc]; exact Or.inr rfl
      · rw [if_neg hc]; exact Or.inl rfl
    · by_cases hc : cmpOptTime b.client_upload_time a.client_upload_time = .lt
      · rw [if_pos hc, hc]; decide
      · rw [if_neg hc, cmpOptTime_self]; decide
    · by_cases hc : cmpOptTime b.client_upload_time a.client_upload_time = .lt
      · rw [if_pos hc, cmpOptTime_self]; decide
      · rw [if_neg hc]
        intro hgt
        exact hc (by rw [cmpOptTime_swap, hgt]; decide)
    · intro he
      have hba : cmpOptTime b.client_upload_time a.client_upload_time = .eq := by
        rw [cmpOptTime_swap, he]; decide
      rw [if_neg (by simp [hba])]

theorem claim_C1_witness :
    exportEventEq blankEvent dupLater = true ∧
    fromEvents [blankEvent, dupLater] = .ok (.trueDuplicate [blankEvent, dupLater]) :=
  ⟨by decide, (claim_C1_true_duplicate blankEvent dupLater (by decide)).1⟩

theorem replaceAux_no_occurrence (pat rep : List Char) :
    ∀ (n : Nat) (l : List Char), ¬ (pat <:+: l) → replaceAux n l pat rep = l := by
  intro n
  induction n with
  | zero => intro l _; rfl
  | succ n ih =>
    intro l hl
    cases l with
    | nil => rfl
    | cons c rest =>
      have hpre : pat.isPrefixOf (c :: rest) = false := by
        cases hp : pat.isPrefixOf (c :: rest) with
        | false => rfl
        | true =>
          obtain ⟨t, ht⟩ := List.isPrefixOf_iff_prefix.mp hp
          exact absurd ⟨[], t, by simpa using ht⟩ hl
      rw [replaceAux, if_neg (by simp [hpre])]
      have htail : ¬ (pat <:+: rest) := fun hinf => hl (List.infix_cons hinf)
      rw [ih rest htail]

theorem strReplace_no_occurrence (s pat rep : String)
    (h : ¬ (pat.data <:+: s.data)) : strReplace s pat rep = s := by
  unfold strReplace
  rw [replaceAux_no_occurrence pat.data rep.data s.data.length s.data h]

/-- C3: for two-record payloads of the three property-change
classifications, the resolver keeps one record whose `event_properties`
is the chronologically later record's and whose every other field is the
chronologically earlier record's (order by `client_upload_time`, assumed
strict so that earlier/later is well defined). -/
theorem claim_C3_prop_change_resolution (a b : ExportEvent)
    (h : cmpOptTime a.client_upload_time b.client_upload_time ≠ .eq) :
    ∃ e l, ((e = a ∧ l = b) ∨ (e = b ∧ l = a)) ∧
      cmpOptTime e.client_upload_time l.client_upload_time = .lt ∧
      resolution (.propertyNameChange [a, b]) =
        .ok (.keepOne { e with event_properties := l.event_properties }) ∧
      resolution (.dropTypeChange [a, b]) =
        .ok (.keepOne { e with event_properties := l.event_properties }) ∧
      resolution (.propertyDropPriceChange [a, b]) =
        .ok (.keepOne { e with event_properties := l.event_properties }) := by
  cases hc : cmpOptTime a.client_upload_time b.client_upload_time with
  | eq => exact absurd hc h
  | lt =>
    exact ⟨a, b, Or.inl ⟨rfl, rfl⟩, hc,
      by simp [resolution, resolvePropChange, hc],
      by simp [resolution, resolvePropChange, hc],
      by simp [resolution, resolvePropChange, hc]⟩
  | gt =>
    have hba : cmpOptTime b.client_upload_time a.client_upload_time = .lt := by
      rw [cmpOptTime_swap, hc]; decide
    exact ⟨b, a, Or.inr ⟨rfl, rfl⟩, hba,
      by simp [resolution, resolvePropChange, hc],
      by simp [resolution, resolvePropChange, hc],
      by simp [resolution, resolvePropChange, hc]⟩

theorem claim_C3_witness :
    cmpOptTime chgEarlier.client_upload_time chgLater.client_upload_time = .lt ∧
    resolution (.propertyNameChange [chgEarlier, chgLater]) =
      .ok (.keepOne { chgEarlier with event_properties := chgLater.event_properties }) := by
  obtain ⟨e, l, hel, hlt, h1, _, _⟩ :=
    claim_C3_prop_change_resolution chgEarlier chgLater (by decide)
  rcases hel with ⟨he, hl⟩ | ⟨he, hl⟩
  · subst he; subst hl; exact ⟨hlt, h1⟩
  · subst he; subst hl; exact absurd hlt (by decide)

theorem findSubmittedCompleted_pair {a b : ExportEvent}
    (hsub : a.event_type = some "Property Pre-Order Submitted")
    (hcom : b.event_type = some "Property Pre-Order Completed") :
    findSubmittedCompleted [a, b] = (some a, some b) ∧
    findSubmittedCompleted [b, a] = (some a, some b) := by
  constructor <;>
  · unfold findSubmittedCompleted
    simp only [List.foldl_cons, List.foldl_nil, hsub, hcom]
    simp

/-- C4: a two-record group pairing the submitted and completed steps of
the pre-order flow (with equal `event_properties`, so no other rule
fires) is classified `PreOrderDropCompletedMistake` and resolves to
`KeepMany` of the submitted record unchanged and the completed record
with `Submitted` replaced by `Completed` inside its `insert_id`; the
replacement leaves any string without that substring unchanged. -/
theorem claim_C4_preorder_mistake (a b : ExportEvent) (g : List ExportEvent)
    (hg : g = [a, b] ∨ g = [b, a])
    (hsub : a.event_type = some "Property Pre-Order Submitted")
    (hcom : b.event_type = some "Property Pre-Order Completed")
    (hep : optMapBeq a.event_properties b.event_properties = true) :
    fromEvents g = .ok (.preOrderDropCompletedMistake g) ∧
    resolution (.preOrderDropCompletedMistake g) =
      .ok (.keepMany [a, rewriteInsertId b]) ∧
    (∀ s : String, ¬ ("Submitted".data <:+: s.data) →
      strReplace s "Submitted" "Completed" = s) := by
  have h1 : (a.event_type == submittedType) = true := by rw [hsub]; decide
  have h2 : (b.event_type == completedType) = true := by rw [hcom]; decide
  obtain ⟨hfAB, hfBA⟩ := findSubmittedCompleted_pair hsub hcom
  have hres : ∀ items, findSubmittedCompleted items = (some a, some b) →
      resolution (.preOrderDropCompletedMistake items) =
        .ok (.keepMany [a, rewriteInsertId b]) := by
    intro items hfind
    simp only [resolution, hfind]
    cases hbi : b.insert_id <;> simp [rewriteInsertId, hbi]
  rcases hg with hg | hg <;> subst hg
  · refine ⟨?_, hres _ hfAB, fun s hs => strReplace_no_occurrence s _ _ hs⟩
    unfold fromEvents
    rw [if_neg (show ¬([a, b].length > 2) by simp)]
    simp only [List.any_cons, List.any_nil, h1, h2, Bool.true_or, Bool.or_true,
      Bool.or_false, Bool.true_and, Bool.and_true, hep]
    simp [finishDiffCheck, setTentative]
  · have hep' : optMapBeq b.event_properties a.event_properties = true := by
      rw [optMapBeq_symm]; exact hep
    refine ⟨?_, hres _ hfBA, fun s hs => strReplace_no_occurrence s _ _ hs⟩
    unfold fromEvents
    rw [if_neg (show ¬([b, a].length > 2) by simp)]
    simp only [List.any_cons, List.any_nil, h1, h2, Bool.true_or, Bool.or_true,
      Bool.or_false, Bool.true_and, Bool.and_true, hep']
    simp [finishDiffCheck, setTentative]

theorem claim_C4_witness :
    preSub.event_type = some "Property Pre-Order Submitted" ∧
    preCom.event_type = some "Property Pre-Order Completed" ∧
    optMapBeq preSub.event_properties preCom.event_properties = true ∧
    fromEvents [preSub, preCom] = .ok (.preOrderDropCompletedMistake [preSub, preCom]) ∧
    resolution (.preOrderDropCompletedMistake [preSub, preCom]) =
      .ok (.keepMany [preSub, rewriteInsertId preCom]) ∧
    strReplace "X Submitted" "Submitted" "Completed" = "X Completed" := by
  have h := claim_C4_preorder_mistake preSub preCom [preSub, preCom] (Or.inl rfl)
    rfl rfl (by decide)
  exact ⟨rfl, rfl, by decide, h.1, h.2.1, by decide⟩

/-- C6 counterexample: a two-record group with the non-UUID key `abc`,
first record property `Property ↦ "v"` and second record property
`PropertyName ↦ "v"` (different key names, same value) IS classified
`PropertyNameChange`, contradicting the claim that it must not be. -/
theorem claim_C6_counterexample :
    fromEvents [renA, renB] = .ok (.propertyNameChange [renA, renB]) := rfl

/-- C6 amended: for such a group (non-UUID key, `Property ↦ v` present
only on the first record, `PropertyName ↦ v` on the second, the other
special properties equal, mixed-event-type rule not firing) the
classifier DOES produce `PropertyNameChange`: the rule compares the
values at key `Property`, and present-vs-absent counts as different. -/
theorem claim_C6_amended (a b : ExportEvent) (iid : String) (v : Json)
    (m1 m2 : List (String × Json))
    (hid : a.insert_id = some iid) (huuid : uuidParseOk iid = false)
    (h1 : a.event_properties = some m1) (h2 : b.event_properties = some m2)
    (hp1 : mapGet m1 "Property" = some v) (hp2 : mapGet m2 "Property" = none)
    (_hpn : mapGet m2 "PropertyName" = some v)
    (hdt : mapGet m1 "Drop Type" = mapGet m2 "Drop Type")
    (hpp : mapGet m1 "Price per Share" = mapGet m2 "Price per Share")
    (hfired : (List.any [a, b] (fun e => e.event_type == submittedType) &&
               List.any [a, b] (fun e => e.event_type == completedType)) = false) :
    fromEvents [a, b] = .ok (.propertyNameChange [a, b]) := by
  have hne : mapBeq m1 m2 = false :=
    mapBeq_false_of_get_ne (by rw [hp1, hp2]; simp)
  unfold fromEvents
  rw [if_neg (show ¬([a, b].length > 2) by simp)]
  simp only [hfired, h1, h2, hid]
  simp [optMapBeq, hne, huuid, hp1, hp2, hdt, hpp, finishDiffCheck, setTentative]

theorem claim_C6_witness :
    uuidParseOk "abc" = false ∧
    fromEvents [renA, renB] = .ok (.propertyNameChange [renA, renB]) :=
  ⟨by decide,
    claim_C6_amended renA renB "abc" (Json.str "v")
      [("Property", Json.str "v")] [("PropertyName", Json.str "v")]
      rfl (by decide) rfl rfl (by decide) (by decide) (by decide) (by decide)
      (by decide) (by decide)⟩

/-- C7 counterexample: a two-record group with a UUID key and unequal
present property maps is classified `Multi([Unknown, UnknownPropDiff])`,
not `Unknown` as the claim's parenthetical states. -/
theorem claim_C7_counterexample :
    fromEvents [uuidA, uuidB] =
      .ok (.multi [uuidA, uuidB] [.unknown [uuidA, uuidB], .unknownPropDiff [uuidA, uuidB]]) ∧
    fromEvents [uuidA, uuidB] ≠ .ok (.unknown [uuidA, uuidB]) := by
  refine ⟨rfl, ?_⟩
  intro h
  rw [show fromEvents [uuidA, uuidB] =
        .ok (.multi [uuidA, uuidB] [.unknown [uuidA, uuidB], .unknownPropDiff [uuidA, uuidB]])
      from rfl] at h
  exact DupeType.noConfusion (Except.ok.inj h)

/-- C7 amended: for a two-record group whose key parses as a UUID and
whose records both have present but unequal `event_properties` (and the
mixed-event-type rule does not fire), none of the property-divergence
sub-types fires; the group is classified
`Multi([Unknown, UnknownPropDiff])`, which resolves to `Error` — not
auto-classified into a resolvable type. -/
theorem claim_C7_amended (a b : ExportEvent) (iid : String)
    (m1 m2 : List (String × Json))
    (hid : a.insert_id = some iid) (huuid : uuidParseOk iid = true)
    (h1 : a.event_properties = some m1) (h2 : b.event_properties = some m2)
    (hne : mapBeq m1 m2 = false)
    (hfired : (List.any [a, b] (fun e => e.event_type == submittedType) &&
               List.any [a, b] (fun e => e.event_type == completedType)) = false) :
    fromEvents [a, b] =
      .ok (.multi [a, b] [.unknown [a, b], .unknownPropDiff [a, b]]) ∧
    resolution (.multi [a, b] [.unknown [a, b], .unknownPropDiff [a, b]]) =
      .ok (.error (.multi [a, b] [.unknown [a, b], .unknownPropDiff [a, b]])) := by
  constructor
  · have hepf : optMapBeq a.event_properties b.event_properties = false := by
      rw [h1, h2]
      simpa [optMapBeq] using hne
    have heq : exportEventEq a b = false := exportEventEq_false_of_ep hepf
    unfold fromEvents
    rw [if_neg (show ¬([a, b].length > 2) by simp)]
    simp only [hfired, h1, h2, hid]
    simp [optMapBeq, hne, huuid, heq, finishDiffCheck, setTentative]
  · rfl

theorem claim_C7_witness :
    uuidParseOk nilUuid = true ∧
    fromEvents [uuidA, uuidB] =
      .ok (.multi [uuidA, uuidB] [.unknown [uuidA, uuidB], .unknownPropDiff [uuidA, uuidB]]) :=
  ⟨by decide,
    (claim_C7_amended uuidA uuidB nilUuid [("x", Json.num 1)] [("x", Json.num 2)]
      rfl (by decide) rfl rfl (by decide) (by decide)).1⟩

/-- C10: `DupeType::from_events` has an undocumented precondition that
the first record's `insert_id` is present: on a two-record group whose
first record lacks it and whose property maps are present but unequal,
the `unwrap` at the UUID check panics; and the grouping entry point only
builds groups out of records whose `insert_id` equals the group key, so
the panic path is unreachable from it. -/
theorem claim_C10_insert_id_precondition (a b : ExportEvent)
    (m1 m2 : List (String × Json))
    (hid : a.insert_id = none)
    (h1 : a.event_properties = some m1) (h2 : b.event_properties = some m2)
    (hne : mapBeq m1 m2 = false) :
    fromEvents [a, b] = .error .unwrapNone ∧
    (∀ (events : List ExportEvent) (k : String) (e : ExportEvent),
      e ∈ insertIdGroup events k → e.insert_id = some k) := by
  constructor
  · unfold fromEvents
    rw [if_neg (show ¬([a, b].length > 2) by simp)]
    simp only [h1, h2, hid]
    simp [optMapBeq, hne]
  · intro events k e he
    have hm := List.mem_filter.mp he
    simpa using hm.2

theorem claim_C10_witness :
    noIdA.insert_id = none ∧
    fromEvents [noIdA, noIdB] = .error .unwrapNone :=
  ⟨rfl,
    (claim_C10_insert_id_precondition noIdA noIdB
      [("x", Json.num 1)] [("x", Json.num 2)] rfl rfl rfl (by decide)).1⟩

theorem diffOverKeys_key_mem (o1 o2 : List (String × Json)) (k : String) :
    k ∈ (diffOverKeys o1 o2).map (·.1) ↔
    ((k ∈ o1.map (·.1) ∨ k ∈ o2.map (·.1)) ∧ mapGet o1 k ≠ mapGet o2 k) := by
  unfold diffOverKeys
  rw [List.map_map]
  simp [List.mem_filter, List.mem_dedup, List.mem_append]

/-- C8: both diff operations report the same changed-key set in either
argument order (the values swap position), and the property diff of an
absent map against `x ↦ 1` is exactly one difference at key `x`. Both
operations are pure Lean functions of their inputs, hence deterministic
and non-mutating. -/
theorem claim_C8_diff_symmetry :
    (∀ (a b : ExportEvent) (k : String),
      k ∈ (findEventDifferences a b).map (·.1) ↔
      k ∈ (findEventDifferences b a).map (·.1)) ∧
    (∀ (a b : ExportEvent) (k : String),
      k ∈ (findEventPropertiesDifferences a b).map (·.1) ↔
      k ∈ (findEventPropertiesDifferences b a).map (·.1)) ∧
    findEventPropertiesDifferences blankEvent propXOnly =
      [("x", (none, some (Json.num 1)))] := by
  refine ⟨?_, ?_, rfl⟩
  · intro a b k
    rw [findEventDifferences, findEventDifferences, diffOverKeys_key_mem,
      diffOverKeys_key_mem]
    tauto
  · intro a b k
    unfold findEventPropertiesDifferences
    cases ha : a.event_properties with
    | none =>
      cases hb : b.event_properties with
      | none => exact Iff.rfl
      | some m => rw [List.map_map, List.map_map]; exact Iff.rfl
    | some m =>
      cases hb : b.event_properties with
      | none => rw [List.map_map, List.map_map]; exact Iff.rfl
      | some m2 =>
        rw [diffOverKeys_key_mem, diffOverKeys_key_mem]
        tauto

/-- C9 counterexample: two records that are equal under the §3 invariant
(differing only in the ignored `user_properties` field) are nevertheless
NOT classified as identical by the cross-snapshot comparison, so
`events_are_identical` is not the §3 equality invariant. -/
theorem claim_C9_counterexample :
    exportEventEq blankEvent userPropsOnly = true ∧
    eventsAreIdentical blankEvent userPropsOnly = false := ⟨rfl, rfl⟩

/-- C9 amended: the cross-snapshot comparison classifies two records
sharing a key as identical exactly when they agree on the nine
hand-picked fields `insert_id`, `event_type`, `user_id`, `device_id`,
`event_time`, `event_properties`, `user_properties`, `groups`,
`group_properties` (map fields compared as key-value maps) — not the §3
equality invariant, which ignores `user_properties` and compares many
further fields. -/
theorem claim_C9_amended (e1 e2 : ExportEvent) :
    eventsAreIdentical e1 e2 = true ↔
      (e1.insert_id = e2.insert_id ∧ e1.event_type = e2.event_type ∧
       e1.user_id = e2.user_id ∧ e1.device_id = e2.device_id ∧
       e1.event_time = e2.event_time ∧
       OptMapEqv e1.event_properties e2.event_properties ∧
       OptMapEqv e1.user_properties e2.user_properties ∧
       OptMapEqv e1.groups e2.groups ∧
       OptMapEqv e1.group_properties e2.group_properties) := by
  simp only [eventsAreIdentical, Bool.and_eq_true, beq_iff_eq, optMapBeq_iff]
  tauto
